import Mathlib

/-!
Shallow embedding of the `ai-image-pipeline` domain core: the
`ImageValidation` rules, the `ImageDimensions` value object, the `Image`
entity, the `ProcessingJob` state machine and the `EnhanceImageUseCase`
orchestrator, together with theorems checking the claims of the specification.

Modelling conventions:
* a TypeScript `number` is modelled as a rational `ℚ` (every value the
  program manipulates is finite; `Number.isFinite` is therefore always
  true in the model and the corresponding guard never fires);
* `Math.round x` is `⌊x + 1/2⌋` (JavaScript rounds half towards +∞,
  which for the positive values arising here is round-half-up);
* `Number.isInteger x` is `x.den = 1`;
* a thrown `Error` is the `Except.error` case carrying the message string;
* `Date` values are abstract instants modelled as `Nat`;
* `toLowerCase` is `String.toLower` (character-wise ASCII lowering).
-/

/-- JavaScript `Math.round`: `⌊x + 1/2⌋`. -/
def jsRound (x : ℚ) : ℤ := ⌊x + 1/2⌋

/-- JavaScript `Number.isInteger` on the rational model of a `number`. -/
def jsIsInteger (x : ℚ) : Bool := x.den == 1

/-- True exactly on the `Except.ok` case (a call that did not throw). -/
def didNotThrow {ε α : Type} : Except ε α → Bool
  | .ok _ => true
  | .error _ => false

/-- JavaScript `toLowerCase`, character-wise (ASCII letters lowered). -/
def jsToLowerCase (s : String) : String := ⟨s.data.map Char.toLower⟩

namespace ImageValidation

/-- Embeds `ImageValidation.validateDimensions`: positivity, then integrality,
then the 10000px upper bound, failing fast with the messages of the source. -/
def validateDimensions (width height : ℚ) : Except String Unit :=
  if width ≤ 0 ∨ height ≤ 0 then
    .error "Image dimensions must be positive numbers"
  else if ¬ jsIsInteger width ∨ ¬ jsIsInteger height then
    .error "Image dimensions must be integers"
  else if width > 10000 ∨ height > 10000 then
    .error "Image dimensions exceed maximum allowed size (10000px)"
  else
    .ok ()

/-- The `supportedFormats` array of the source, in its fixed order. -/
def supportedFormats : List String := ["jpeg", "jpg", "png", "webp", "bmp"]

/-- Embeds `ImageValidation.validateFormat`: a non-empty string whose lowercased
form is a supported format. The TypeScript guard `!format || typeof
format !== string` (quotes elided) reduces, on the string model, to the emptiness test. -/
def validateFormat (format : String) : Except String Unit :=
  if format = "" then
    .error "Image format must be a non-empty string"
  else if ¬ supportedFormats.contains (jsToLowerCase format) then
    .error ("Unsupported image format: " ++ format ++ ". Supported: "
      ++ String.intercalate ", " supportedFormats)
  else
    .ok ()

/-- The constant `maxSizeInBytes = 50 * 1024 * 1024` of the source, written as the
numeral the JavaScript arithmetic produces (see `maxSizeInBytes_eq`). -/
def maxSizeInBytes : ℚ := 52428800

/-- Embeds `ImageValidation.validateFileSize`: positive and at most 50MB; the
message interpolates `maxSizeInBytes / 1024 / 1024`, that is `50`. -/
def validateFileSize (sizeInBytes : ℚ) : Except String Unit :=
  if sizeInBytes ≤ 0 then
    .error "File size must be positive"
  else if sizeInBytes > maxSizeInBytes then
    .error "File size exceeds maximum allowed (50MB)"
  else
    .ok ()

/-- Embeds `ImageValidation.validateUpscaleFactor`. The source first rejects
non-finite numbers (`Number.isFinite`); a rational is always finite, so
that branch never fires in the model and is omitted. -/
def validateUpscaleFactor (factor : ℚ) : Except String Unit :=
  if factor ≤ 1 then
    .error "Upscale factor must be greater than 1"
  else if factor > 4 then
    .error "Upscale factor cannot exceed 4x for performance reasons"
  else
    .ok ()

end ImageValidation

/-- The `ImageDimensions` value object: a width/height pair of `number`s. -/
structure ImageDimensions where
  width : ℚ
  height : ℚ
deriving Repr, DecidableEq

/-- The `ImageDimensions` constructor: re-runs `validateDimensions`, then
stores the two fields. A thrown validation error is the `error` case. -/
def ImageDimensions.make (width height : ℚ) : Except String ImageDimensions := do
  ImageValidation.validateDimensions width height
  .ok ⟨width, height⟩

/-- Embeds `ImageDimensions.toString`: the canonical `"WIDTHxHEIGHT"` rendering. -/
def ImageDimensions.render (d : ImageDimensions) : String :=
  toString d.width.num ++ "x" ++ toString d.height.num

/-- The `Image` entity: identifier and validated metadata. Fields hold the
raw constructor arguments; validity is established by `Image.make`. -/
structure Image where
  id : String
  width : ℚ
  height : ℚ
  format : String
  sizeInBytes : ℚ
deriving Repr, DecidableEq

/-- The `Image` constructor: runs the three validators in the fixed source order (dimensions, format, file size) and then stores the raw
arguments — in particular the format keeps its original casing. -/
def Image.make (id : String) (width height : ℚ) (format : String)
    (sizeInBytes : ℚ) : Except String Image := do
  ImageValidation.validateDimensions width height
  ImageValidation.validateFormat format
  ImageValidation.validateFileSize sizeInBytes
  .ok ⟨id, width, height, format, sizeInBytes⟩

/-- Embeds `Image.canBeUpscaled`: both axes strictly below 4000. -/
def Image.canBeUpscaled (img : Image) : Bool :=
  decide (img.width < 4000) && decide (img.height < 4000)

/-- Embeds `Image.getUpscaledDimensions`: validates the factor, then constructs a
new `ImageDimensions` from `Math.round(width * factor)` and
`Math.round(height * factor)` — the `ImageDimensions` constructor re-runs
`validateDimensions` on the rounded values. -/
def Image.getUpscaledDimensions (img : Image) (factor : ℚ) :
    Except String ImageDimensions := do
  ImageValidation.validateUpscaleFactor factor
  ImageDimensions.make ((jsRound (img.width * factor) : ℤ) : ℚ)
    ((jsRound (img.height * factor) : ℤ) : ℚ)

/-- The `ProcessingStatus` enumeration. -/
inductive ProcessingStatus where
  | PENDING
  | IN_PROGRESS
  | COMPLETED
  | FAILED
deriving Repr, DecidableEq

/-- The `ProcessingJob` entity's fields. A mutating method is embedded as
a function from the receiver to the pair (thrown-or-returned result,
receiver after the call); a guard that throws before any assignment leaves
the receiver component unchanged. -/
structure ProcessingJob where
  id : String
  sourceImage : Image
  status : ProcessingStatus
  enhancedDimensions : Option ImageDimensions
  processingTimeMs : Option ℚ
  errorMessage : Option String
  createdAt : Nat
  completedAt : Option Nat
deriving Repr, DecidableEq

/-- The `ProcessingJob` constructor: PENDING, all result fields null,
`createdAt` set to the current instant. -/
def ProcessingJob.make (id : String) (sourceImage : Image) (now : Nat) :
    ProcessingJob :=
  ⟨id, sourceImage, .PENDING, none, none, none, now, none⟩

/-- Embeds `ProcessingJob.isCompleted`. -/
def ProcessingJob.isCompleted (j : ProcessingJob) : Bool :=
  j.status == .COMPLETED

/-- Embeds `ProcessingJob.hasFailed`. -/
def ProcessingJob.hasFailed (j : ProcessingJob) : Bool :=
  j.status == .FAILED

/-- Embeds `ProcessingJob.startProcessing`: guard on PENDING, then move to
IN_PROGRESS. -/
def ProcessingJob.startProcessing (j : ProcessingJob) :
    Except String Unit × ProcessingJob :=
  if j.status ≠ .PENDING then
    (.error "Job can only be started from PENDING status", j)
  else
    (.ok (), { j with status := .IN_PROGRESS })

/-- Embeds `ProcessingJob.completeSuccessfully`: guard on IN_PROGRESS, then move
to COMPLETED storing the enhanced dimensions, the duration and the
completion instant. -/
def ProcessingJob.completeSuccessfully (j : ProcessingJob)
    (enhancedDimensions : ImageDimensions) (processingTimeMs : ℚ)
    (now : Nat) : Except String Unit × ProcessingJob :=
  if j.status ≠ .IN_PROGRESS then
    (.error "Job must be IN_PROGRESS to complete", j)
  else
    (.ok (), { j with
      status := .COMPLETED
      enhancedDimensions := some enhancedDimensions
      processingTimeMs := some processingTimeMs
      completedAt := some now })

/-- Embeds `ProcessingJob.fail`: guard on IN_PROGRESS, then move to FAILED
storing the error message and the completion instant. -/
def ProcessingJob.fail (j : ProcessingJob) (errorMessage : String)
    (now : Nat) : Except String Unit × ProcessingJob :=
  if j.status ≠ .IN_PROGRESS then
    (.error "Job must be IN_PROGRESS to fail", j)
  else
    (.ok (), { j with
      status := .FAILED
      errorMessage := some errorMessage
      completedAt := some now })

/-- One transition call on a `ProcessingJob`, with its arguments. -/
inductive JobCall where
  | start
  | complete (dims : ImageDimensions) (ms : ℚ) (now : Nat)
  | failWith (msg : String) (now : Nat)
deriving Repr

/-- The job after a (possibly throwing) transition call: the receiver
component of the result of the method, unchanged when the guard threw. -/
def ProcessingJob.applyCall (j : ProcessingJob) : JobCall → ProcessingJob
  | .start => j.startProcessing.2
  | .complete dims ms now => (j.completeSuccessfully dims ms now).2
  | .failWith msg now => (j.fail msg now).2

/-- The job after a whole sequence of (possibly throwing) calls. -/
def ProcessingJob.runCalls (j : ProcessingJob) (calls : List JobCall) :
    ProcessingJob :=
  calls.foldl ProcessingJob.applyCall j

/-- The §3 `ProcessingJob` invariant relating the nullable result fields
to the status. -/
def jobInvariant (j : ProcessingJob) : Prop :=
  (j.enhancedDimensions.isSome = true ↔ j.status = .COMPLETED) ∧
  (j.processingTimeMs.isSome = true ↔ j.status = .COMPLETED) ∧
  (j.errorMessage.isSome = true ↔ j.status = .FAILED) ∧
  (j.completedAt.isSome = true ↔ (j.status = .COMPLETED ∨ j.status = .FAILED))

/-- Embeds `LoadedImageData` as resolved by the image loader port. -/
structure LoadedImageData where
  data : List Nat
  width : ℚ
  height : ℚ
  format : String
  sizeBytes : ℚ
deriving Repr, DecidableEq

/-- Embeds `SuperResolutionResult` as resolved by the super-resolution port. -/
structure SuperResolutionResult where
  enhancedImageData : List Nat
  processingTimeMs : ℚ
deriving Repr, DecidableEq

/-- Embeds `EnhanceImageRequest`: the image input itself is opaque to the model
(the loader outcome is supplied directly), so only the optional upscale
factor is kept. -/
structure EnhanceImageRequest where
  upscaleFactor : Option ℚ
deriving Repr, DecidableEq

/-- Embeds `EnhanceImageResponse` with its optional diagnostic fields. -/
structure EnhanceImageResponse where
  success : Bool
  enhancedImageData : Option (List Nat)
  originalImage : Option Image
  job : Option ProcessingJob
  enhancedDimensions : Option ImageDimensions
  processingTimeMs : ℚ
  errorMessage : Option String
deriving Repr, DecidableEq

/-- A port invocation performed by `EnhanceImageUseCase.execute`, recorded
in program order. -/
inductive PortCall where
  | loadImage
  | enhanceImage
deriving Repr, DecidableEq

/-- Outcome of the `try` block of `execute`: either the success response,
or a thrown message together with the `originalImage` and `job` local
variables as they stand when the exception reaches the `catch`. -/
inductive TryOutcome where
  | success (resp : EnhanceImageResponse)
  | thrown (msg : String) (originalImage : Option Image)
      (job : Option ProcessingJob)
deriving Repr

/-- The `try` block of `EnhanceImageUseCase.execute`, step by step in the
order of the source, paired with the list of port invocations it performed.
The two asynchronous ports are modelled by their resolutions (`loader`,
`resolver`), the generated identifiers by `imageId`/`jobId`, `Date` reads
by `now`, and the measured `Date.now() - startTime` by `elapsedMs`. -/
def executeTry (upscaleFactor : ℚ) (loader : Except String LoadedImageData)
    (resolver : Except String SuperResolutionResult)
    (imageId jobId : String) (now : Nat) (elapsedMs : ℚ) :
    TryOutcome × List PortCall :=
  match ImageValidation.validateUpscaleFactor upscaleFactor with
  | .error e => (.thrown e none none, [])
  | .ok () =>
  match loader with
  | .error e => (.thrown e none none, [.loadImage])
  | .ok loadedImage =>
  match ImageValidation.validateDimensions loadedImage.width loadedImage.height with
  | .error e => (.thrown e none none, [.loadImage])
  | .ok () =>
  match ImageValidation.validateFileSize loadedImage.sizeBytes with
  | .error e => (.thrown e none none, [.loadImage])
  | .ok () =>
  match ImageValidation.validateFormat loadedImage.format with
  | .error e => (.thrown e none none, [.loadImage])
  | .ok () =>
  match Image.make imageId loadedImage.width loadedImage.height
      loadedImage.format loadedImage.sizeBytes with
  | .error e => (.thrown e none none, [.loadImage])
  | .ok originalImage =>
  match (ProcessingJob.make jobId originalImage now).startProcessing with
  | (.error e, job) => (.thrown e (some originalImage) (some job), [.loadImage])
  | (.ok (), job) =>
  match resolver with
  | .error e =>
      (.thrown e (some originalImage) (some job), [.loadImage, .enhanceImage])
  | .ok result =>
  match originalImage.getUpscaledDimensions upscaleFactor with
  | .error e =>
      (.thrown e (some originalImage) (some job), [.loadImage, .enhanceImage])
  | .ok enhancedDimensions =>
  match job.completeSuccessfully enhancedDimensions elapsedMs now with
  | (.error e, job) =>
      (.thrown e (some originalImage) (some job), [.loadImage, .enhanceImage])
  | (.ok (), job) =>
      (.success ⟨true, some result.enhancedImageData, some originalImage,
        some job, some enhancedDimensions, elapsedMs, none⟩,
       [.loadImage, .enhanceImage])

/-- Embeds `EnhanceImageUseCase.execute`: default factor 2, the `try` block, and
the `catch` block, which marks an already created job as failed with the
caught message (`job?.fail(errorMessage)`) and assembles the failure
response. Were `fail` itself to throw inside the `catch`, the exception
would escape `execute`; that is the outer `Except.error` case. -/
def EnhanceImageUseCase.execute (request : EnhanceImageRequest)
    (loader : Except String LoadedImageData)
    (resolver : Except String SuperResolutionResult)
    (imageId jobId : String) (now : Nat) (elapsedMs : ℚ) :
    Except String (EnhanceImageResponse × List PortCall) :=
  let upscaleFactor := request.upscaleFactor.getD 2
  match executeTry upscaleFactor loader resolver imageId jobId now elapsedMs with
  | (.success resp, calls) => .ok (resp, calls)
  | (.thrown msg oimg ojob, calls) =>
    match ojob with
    | none =>
        .ok ({ success := false, enhancedImageData := none,
               originalImage := oimg, job := none,
               enhancedDimensions := none, processingTimeMs := elapsedMs,
               errorMessage := some msg }, calls)
    | some j =>
        match j.fail msg now with
        | (.error e, _) => .error e
        | (.ok (), j') =>
            .ok ({ success := false, enhancedImageData := none,
                   originalImage := oimg, job := some j',
                   enhancedDimensions := none, processingTimeMs := elapsedMs,
                   errorMessage := some msg }, calls)

/-! ## Helper lemmas -/

theorem jsIsInteger_intCast (n : ℤ) : jsIsInteger ((n : ℤ) : ℚ) = true := by
  simp [jsIsInteger, Rat.den_intCast]

theorem jsIsInteger_iff_exists (x : ℚ) :
    jsIsInteger x = true ↔ ∃ n : ℤ, x = (n : ℚ) := by
  constructor
  · intro h
    refine ⟨x.num, ?_⟩
    have hden : x.den = 1 := by simpa [jsIsInteger] using h
    exact ((Rat.den_eq_one_iff x).mp hden).symm
  · rintro ⟨n, rfl⟩
    exact jsIsInteger_intCast n

theorem validateUpscaleFactor_ok_iff (f : ℚ) :
    ImageValidation.validateUpscaleFactor f = .ok () ↔ 1 < f ∧ f ≤ 4 := by
  unfold ImageValidation.validateUpscaleFactor
  split_ifs with h1 h2
  · simp only [reduceCtorEq, false_iff]
    rintro ⟨ha, -⟩
    linarith
  · simp only [reduceCtorEq, false_iff]
    rintro ⟨-, hb⟩
    linarith
  · simp only [true_iff]
    push_neg at h1 h2
    exact ⟨h1, h2⟩

theorem validateDimensions_ok_iff (w h : ℚ) :
    ImageValidation.validateDimensions w h = .ok () ↔
      0 < w ∧ 0 < h ∧ jsIsInteger w = true ∧ jsIsInteger h = true ∧
      w ≤ 10000 ∧ h ≤ 10000 := by
  unfold ImageValidation.validateDimensions
  split_ifs with h1 h2 h3
  · simp only [reduceCtorEq, false_iff]
    rintro ⟨hw, hh, -⟩
    rcases h1 with hc | hc
    · linarith
    · linarith
  · simp only [reduceCtorEq, false_iff]
    rintro ⟨-, -, hiw, hih, -⟩
    rcases h2 with hc | hc
    · simp only [hiw, not_true_eq_false] at hc
    · simp only [hih, not_true_eq_false] at hc
  · simp only [reduceCtorEq, false_iff]
    rintro ⟨-, -, -, -, hw, hh⟩
    rcases h3 with hc | hc
    · linarith
    · linarith
  · simp only [true_iff]
    push_neg at h1 h2 h3
    refine ⟨h1.1, h1.2, ?_, ?_, h3.1, h3.2⟩
    · simpa using h2.1
    · simpa using h2.2

theorem didNotThrow_iff_ok {ε α : Type} (e : Except ε α) :
    didNotThrow e = true ↔ ∃ a, e = .ok a := by
  cases e <;> simp [didNotThrow]

theorem didNotThrow_unit_iff (e : Except String Unit) :
    didNotThrow e = true ↔ e = .ok () := by
  cases e <;> simp [didNotThrow]

theorem except_bind_ok {α β : Type} (a : α) (k : α → Except String β) :
    (Except.ok a >>= k) = k a := rfl

theorem except_bind_error {α β : Type} (e : String)
    (k : α → Except String β) : ((Except.error e : Except String α) >>= k) = .error e := rfl

theorem maxSizeInBytes_eq_source : ImageValidation.maxSizeInBytes = 50 * 1024 * 1024 := by
  unfold ImageValidation.maxSizeInBytes
  norm_num

theorem validateFileSize_ok_iff (s : ℚ) :
    ImageValidation.validateFileSize s = .ok () ↔ 0 < s ∧ s ≤ 52428800 := by
  unfold ImageValidation.validateFileSize ImageValidation.maxSizeInBytes
  split_ifs with h1 h2
  · simp only [reduceCtorEq, false_iff]
    rintro ⟨ha, -⟩
    linarith
  · simp only [reduceCtorEq, false_iff]
    rintro ⟨-, hb⟩
    linarith
  · simp only [true_iff]
    push_neg at h1 h2
    exact ⟨h1, h2⟩

theorem validateFormat_ok_iff (format : String) :
    ImageValidation.validateFormat format = .ok () ↔
      format ≠ "" ∧ jsToLowerCase format ∈ ImageValidation.supportedFormats := by
  unfold ImageValidation.validateFormat
  split_ifs with h1 h2
  · simp only [reduceCtorEq, false_iff]
    rintro ⟨hne, -⟩
    exact hne h1
  · simp only [true_iff]
    exact ⟨h1, List.elem_iff.mp h2⟩
  · simp only [reduceCtorEq, false_iff]
    rintro ⟨-, hmem⟩
    exact h2 (List.elem_iff.mpr hmem)

theorem didNotThrow_bind_const {α β : Type} (e : Except String α) (c : β) :
    didNotThrow (e >>= fun _ => Except.ok c) = didNotThrow e := by
  cases e <;> rfl

/-- C5: for every byte size, `validateFileSize` (and `Image` construction
with respect to file size) succeeds iff `1 ≤ size ≤ 52428800`; the upper
bound is inclusive and every size below 1 is rejected with the
`InvalidFileSize` message. -/
theorem validateFileSize_spec (n : ℤ) :
    (didNotThrow (ImageValidation.validateFileSize (n : ℚ)) = true ↔
      1 ≤ n ∧ n ≤ 52428800) ∧
    (n < 1 → ImageValidation.validateFileSize (n : ℚ) =
      .error "File size must be positive") ∧
    (didNotThrow (Image.make "img" 800 600 "jpeg" (n : ℚ)) = true ↔
      1 ≤ n ∧ n ≤ 52428800) := by
  have hmain : didNotThrow (ImageValidation.validateFileSize (n : ℚ)) = true ↔
      1 ≤ n ∧ n ≤ 52428800 := by
    rw [didNotThrow_unit_iff, validateFileSize_ok_iff]
    constructor
    · rintro ⟨h1, h2⟩
      have h1' : (0 : ℤ) < n := by exact_mod_cast h1
      have h2' : n ≤ 52428800 := by exact_mod_cast h2
      omega
    · rintro ⟨h1, h2⟩
      have h1' : (0 : ℤ) < n := by omega
      exact ⟨by exact_mod_cast h1', by exact_mod_cast h2⟩
  refine ⟨hmain, ?_, ?_⟩
  · intro hlt
    have hle : (n : ℚ) ≤ 0 := by exact_mod_cast (by omega : n ≤ 0)
    unfold ImageValidation.validateFileSize
    rw [if_pos hle]
  · have hchain : Image.make "img" 800 600 "jpeg" (n : ℚ) =
        (ImageValidation.validateFileSize (n : ℚ) >>= fun _ =>
          Except.ok ⟨"img", 800, 600, "jpeg", (n : ℚ)⟩) := rfl
    rw [hchain, didNotThrow_bind_const]
    exact hmain

/-- Witness for C5 at the inclusive upper bound 52428800 and at 0. -/
theorem validateFileSize_spec_witness :
    didNotThrow (ImageValidation.validateFileSize ((52428800 : ℤ) : ℚ)) = true ∧
    ImageValidation.validateFileSize ((0 : ℤ) : ℚ) =
      .error "File size must be positive" :=
  ⟨(validateFileSize_spec 52428800).1.mpr (by omega),
   (validateFileSize_spec 0).2.1 (by omega)⟩

/-- C6: `validateDimensions` succeeds iff both values are integral and in
`(0, 10000]`, and on failure the reported violation follows the priority
order non-positivity, then non-integrality, then the upper bound. -/
theorem validateDimensions_spec (w h : ℚ) :
    (didNotThrow (ImageValidation.validateDimensions w h) = true ↔
      0 < w ∧ 0 < h ∧ (∃ n : ℤ, w = n) ∧ (∃ n : ℤ, h = n) ∧
      w ≤ 10000 ∧ h ≤ 10000) ∧
    (w ≤ 0 ∨ h ≤ 0 → ImageValidation.validateDimensions w h =
      .error "Image dimensions must be positive numbers") ∧
    (0 < w → 0 < h → (¬ (∃ n : ℤ, w = n) ∨ ¬ (∃ n : ℤ, h = n)) →
      ImageValidation.validateDimensions w h =
        .error "Image dimensions must be integers") ∧
    (0 < w → 0 < h → (∃ n : ℤ, w = n) → (∃ n : ℤ, h = n) →
      10000 < w ∨ 10000 < h →
      ImageValidation.validateDimensions w h =
        .error "Image dimensions exceed maximum allowed size (10000px)") := by
  refine ⟨?_, ?_, ?_, ?_⟩
  · rw [didNotThrow_unit_iff, validateDimensions_ok_iff]
    simp only [jsIsInteger_iff_exists]
  · intro hc
    unfold ImageValidation.validateDimensions
    rw [if_pos hc]
  · intro hw hh hint
    have h1 : ¬ (w ≤ 0 ∨ h ≤ 0) := by push_neg; exact ⟨hw, hh⟩
    have h2 : ¬ jsIsInteger w = true ∨ ¬ jsIsInteger h = true := by
      rcases hint with hc | hc
      · exact Or.inl (fun hjs => hc ((jsIsInteger_iff_exists w).mp hjs))
      · exact Or.inr (fun hjs => hc ((jsIsInteger_iff_exists h).mp hjs))
    unfold ImageValidation.validateDimensions
    rw [if_neg h1, if_pos (by simpa using h2)]
  · intro hw hh hiw hih hbig
    have h1 : ¬ (w ≤ 0 ∨ h ≤ 0) := by push_neg; exact ⟨hw, hh⟩
    have h2 : ¬ (¬ jsIsInteger w = true ∨ ¬ jsIsInteger h = true) := by
      push_neg
      exact ⟨(jsIsInteger_iff_exists w).mpr hiw, (jsIsInteger_iff_exists h).mpr hih⟩
    unfold ImageValidation.validateDimensions
    rw [if_neg h1, if_neg (by simpa using h2), if_pos hbig]

/-- Witness for C6: zero width reports the non-positivity message even
though a zero value also violates no other rule first. -/
theorem validateDimensions_spec_witness :
    ImageValidation.validateDimensions 0 5 =
      .error "Image dimensions must be positive numbers" :=
  (validateDimensions_spec 0 5).2.1 (Or.inl (by norm_num))

/-- C7: `validateFormat` succeeds iff the value is a non-empty string whose
lowercased form is one of `jpeg, jpg, png, webp, bmp`; for an unsupported
non-empty string the message echoes the original input and the supported
list in its fixed order; and an `Image` constructed with a valid format
returns the original casing unchanged. -/
theorem validateFormat_spec (format : String) :
    (didNotThrow (ImageValidation.validateFormat format) = true ↔
      format ≠ "" ∧
      jsToLowerCase format ∈ (["jpeg", "jpg", "png", "webp", "bmp"] : List String)) ∧
    (format ≠ "" →
      jsToLowerCase format ∉ (["jpeg", "jpg", "png", "webp", "bmp"] : List String) →
      ImageValidation.validateFormat format =
        .error ("Unsupported image format: " ++ format ++
          ". Supported: jpeg, jpg, png, webp, bmp")) ∧
    (∀ (id : String) (w h size : ℚ) (img : Image),
      Image.make id w h format size = .ok img → img.format = format) := by
  refine ⟨?_, ?_, ?_⟩
  · rw [didNotThrow_unit_iff, validateFormat_ok_iff]
    exact Iff.rfl
  · intro hne hmem
    unfold ImageValidation.validateFormat
    have hnc : ¬ ImageValidation.supportedFormats.contains (jsToLowerCase format) = true :=
      fun hc => hmem (List.elem_iff.mp hc)
    rw [if_neg hne, if_pos hnc]
    have hsup : String.intercalate ", " ImageValidation.supportedFormats =
        "jpeg, jpg, png, webp, bmp" := by decide
    rw [hsup, String.append_assoc]
    have hlit : (". Supported: " ++ "jpeg, jpg, png, webp, bmp" : String) =
        ". Supported: jpeg, jpg, png, webp, bmp" := rfl
    rw [hlit]
  · intro id w h size img hmk
    unfold Image.make at hmk
    cases h1 : ImageValidation.validateDimensions w h <;> rw [h1] at hmk
    · rw [except_bind_error] at hmk
      exact absurd hmk (by simp)
    · rw [except_bind_ok] at hmk
      cases h2 : ImageValidation.validateFormat format <;> rw [h2] at hmk
      · rw [except_bind_error] at hmk
        exact absurd hmk (by simp)
      · rw [except_bind_ok] at hmk
        cases h3 : ImageValidation.validateFileSize size <;> rw [h3] at hmk
        · rw [except_bind_error] at hmk
          exact absurd hmk (by simp)
        · rw [except_bind_ok] at hmk
          have himg : (⟨id, w, h, format, size⟩ : Image) = img := by
            simpa using hmk
          rw [← himg]

/-- Witness for C7: the unsupported format `gif` is rejected with the
message echoing the input and the fixed supported list. -/
theorem validateFormat_spec_witness :
    ImageValidation.validateFormat "gif" =
      .error "Unsupported image format: gif. Supported: jpeg, jpg, png, webp, bmp" :=
  (validateFormat_spec "gif").2.1 (by decide) (by decide)

theorem one_le_jsRound (x : ℚ) (hx : 1 < x) : 1 ≤ jsRound x := by
  unfold jsRound
  rw [Int.le_floor]
  push_cast
  linarith

theorem Image.make_eq_ok (id : String) (w h : ℚ) (format : String)
    (size : ℚ) (img : Image) :
    Image.make id w h format size = .ok img →
      img = ⟨id, w, h, format, size⟩ ∧
      ImageValidation.validateDimensions w h = .ok () ∧
      ImageValidation.validateFormat format = .ok () ∧
      ImageValidation.validateFileSize size = .ok () := by
  intro hmk
  unfold Image.make at hmk
  cases h1 : ImageValidation.validateDimensions w h <;> rw [h1] at hmk
  · rw [except_bind_error] at hmk
    exact absurd hmk (by simp)
  · rw [except_bind_ok] at hmk
    cases h2 : ImageValidation.validateFormat format <;> rw [h2] at hmk
    · rw [except_bind_error] at hmk
      exact absurd hmk (by simp)
    · rw [except_bind_ok] at hmk
      cases h3 : ImageValidation.validateFileSize size <;> rw [h3] at hmk
      · rw [except_bind_error] at hmk
        exact absurd hmk (by simp)
      · rw [except_bind_ok] at hmk
        have himg : (⟨id, w, h, format, size⟩ : Image) = img := by
          simpa using hmk
        exact ⟨himg.symm, rfl, rfl, rfl⟩

/-- C1 (amended): for a validly constructed `Image` and a valid factor,
`getUpscaledDimensions` consults no eligibility check and returns the
axes scaled by the factor and rounded half-up, provided both rounded
axes stay within the 10000 bound re-enforced by the `ImageDimensions`
constructor it calls; a rounded axis above 10000 makes the call throw
`InvalidDimensions` instead of succeeding. -/
theorem getUpscaledDimensions_spec (id : String) (w h : ℚ) (format : String)
    (size : ℚ) (img : Image) (factor : ℚ)
    (hmk : Image.make id w h format size = .ok img)
    (h1 : 1 < factor) (h4 : factor ≤ 4)
    (hwb : jsRound (w * factor) ≤ 10000)
    (hhb : jsRound (h * factor) ≤ 10000) :
    img.getUpscaledDimensions factor =
      .ok ⟨((jsRound (w * factor) : ℤ) : ℚ), ((jsRound (h * factor) : ℤ) : ℚ)⟩ := by
  obtain ⟨himg, hvd, -, -⟩ := Image.make_eq_ok id w h format size img hmk
  subst himg
  obtain ⟨hw0, hh0, hiw, hih, hwle, hhle⟩ := (validateDimensions_ok_iff w h).mp hvd
  have hw1 : 1 ≤ w := by
    obtain ⟨n, rfl⟩ := (jsIsInteger_iff_exists w).mp hiw
    have hn : (0 : ℤ) < n := by exact_mod_cast hw0
    exact_mod_cast (by omega : (1 : ℤ) ≤ n)
  have hh1 : 1 ≤ h := by
    obtain ⟨n, rfl⟩ := (jsIsInteger_iff_exists h).mp hih
    have hn : (0 : ℤ) < n := by exact_mod_cast hh0
    exact_mod_cast (by omega : (1 : ℤ) ≤ n)
  have hfpos : (0 : ℚ) ≤ factor := by linarith
  have hwf : 1 < w * factor := by nlinarith
  have hhf : 1 < h * factor := by nlinarith
  have hrw := one_le_jsRound (w * factor) hwf
  have hrh := one_le_jsRound (h * factor) hhf
  have hvf : ImageValidation.validateUpscaleFactor factor = .ok () :=
    (validateUpscaleFactor_ok_iff factor).mpr ⟨h1, h4⟩
  show Image.getUpscaledDimensions _ factor = _
  unfold Image.getUpscaledDimensions
  rw [hvf, except_bind_ok]
  unfold ImageDimensions.make
  have hvd2 : ImageValidation.validateDimensions
      ((jsRound (w * factor) : ℤ) : ℚ) ((jsRound (h * factor) : ℤ) : ℚ) = .ok () := by
    refine (validateDimensions_ok_iff _ _).mpr
      ⟨?_, ?_, jsIsInteger_intCast _, jsIsInteger_intCast _, ?_, ?_⟩
    · exact_mod_cast (by omega : (0 : ℤ) < jsRound (w * factor))
    · exact_mod_cast (by omega : (0 : ℤ) < jsRound (h * factor))
    · exact_mod_cast hwb
    · exact_mod_cast hhb
  rw [hvd2, except_bind_ok]

/-- Counterexample to C1 as stated: the valid 5000x5000 image is an
oversized source (both axes scale to 20000 > 10000 at factor 4), and
`getUpscaledDimensions(4)` throws `InvalidDimensions` out of the
`ImageDimensions` constructor instead of succeeding. -/
theorem getUpscaledDimensions_counterexample :
    (do
      let img ← Image.make "img" 5000 5000 "jpeg" 1000
      img.getUpscaledDimensions 4) =
      (.error "Image dimensions exceed maximum allowed size (10000px)" :
        Except String ImageDimensions) := by
  have hmk : Image.make "img" 5000 5000 "jpeg" 1000 =
      .ok ⟨"img", 5000, 5000, "jpeg", 1000⟩ := rfl
  show (Image.make "img" 5000 5000 "jpeg" 1000 >>= fun img =>
    img.getUpscaledDimensions 4) = _
  rw [hmk, except_bind_ok]
  unfold Image.getUpscaledDimensions
  have hvf : ImageValidation.validateUpscaleFactor 4 = .ok () := rfl
  rw [hvf, except_bind_ok]
  have hjr : jsRound ((5000 : ℚ) * 4) = 20000 := by
    rw [jsRound, (by norm_num : (5000 : ℚ) * 4 = 20000)]
    norm_num [Int.floor_eq_iff]
  unfold ImageDimensions.make
  rw [show (⟨"img", 5000, 5000, "jpeg", 1000⟩ : Image).width = 5000 from rfl,
    show (⟨"img", 5000, 5000, "jpeg", 1000⟩ : Image).height = 5000 from rfl,
    hjr, (by norm_num : ((20000 : ℤ) : ℚ) = 20000)]
  rfl

/-- Witness for C1 (amended) at the ineligible 4000x4000 image and factor
2: no eligibility check blocks the call and the result is 8000x8000. -/
theorem getUpscaledDimensions_spec_witness :
    Image.canBeUpscaled ⟨"img", 4000, 4000, "jpeg", 1000⟩ = false ∧
    Image.getUpscaledDimensions ⟨"img", 4000, 4000, "jpeg", 1000⟩ 2 =
      .ok ⟨8000, 8000⟩ := by
  have hjr : jsRound ((4000 : ℚ) * 2) = 8000 := by
    rw [jsRound, (by norm_num : (4000 : ℚ) * 2 = 8000)]
    norm_num [Int.floor_eq_iff]
  have happ := getUpscaledDimensions_spec "img" 4000 4000 "jpeg" 1000
    ⟨"img", 4000, 4000, "jpeg", 1000⟩ 2 rfl (by norm_num) (by norm_num)
    (by rw [hjr]; omega) (by rw [hjr]; omega)
  rw [hjr, (by norm_num : ((8000 : ℤ) : ℚ) = 8000)] at happ
  exact ⟨rfl, happ⟩

/-- C3: from PENDING only `startProcessing` succeeds (reaching
IN_PROGRESS); from IN_PROGRESS only `completeSuccessfully` or `fail`
succeed (reaching COMPLETED or FAILED); COMPLETED and FAILED reject every
transition with the `InvalidTransition` messages; and `isCompleted` and
`hasFailed` are never both true in any state. -/
theorem processingJob_state_machine (j : ProcessingJob)
    (dims : ImageDimensions) (ms : ℚ) (now : Nat) (msg : String) :
    (j.status = .PENDING →
      j.startProcessing.1 = .ok () ∧
      j.startProcessing.2.status = .IN_PROGRESS ∧
      (j.completeSuccessfully dims ms now).1 =
        .error "Job must be IN_PROGRESS to complete" ∧
      (j.fail msg now).1 = .error "Job must be IN_PROGRESS to fail") ∧
    (j.status = .IN_PROGRESS →
      j.startProcessing.1 = .error "Job can only be started from PENDING status" ∧
      (j.completeSuccessfully dims ms now).1 = .ok () ∧
      (j.completeSuccessfully dims ms now).2.status = .COMPLETED ∧
      (j.fail msg now).1 = .ok () ∧
      (j.fail msg now).2.status = .FAILED) ∧
    (j.status = .COMPLETED →
      j.startProcessing.1 = .error "Job can only be started from PENDING status" ∧
      (j.completeSuccessfully dims ms now).1 =
        .error "Job must be IN_PROGRESS to complete" ∧
      (j.fail msg now).1 = .error "Job must be IN_PROGRESS to fail") ∧
    (j.status = .FAILED →
      j.startProcessing.1 = .error "Job can only be started from PENDING status" ∧
      (j.completeSuccessfully dims ms now).1 =
        .error "Job must be IN_PROGRESS to complete" ∧
      (j.fail msg now).1 = .error "Job must be IN_PROGRESS to fail") ∧
    ¬ (j.isCompleted = true ∧ j.hasFailed = true) := by
  rcases j with ⟨id, img, st, ed, pt, em, ca, cmp⟩
  cases st <;>
    simp [ProcessingJob.startProcessing, ProcessingJob.completeSuccessfully,
      ProcessingJob.fail, ProcessingJob.isCompleted, ProcessingJob.hasFailed]

/-- Witness for C3: a fresh PENDING job starts successfully into
IN_PROGRESS. -/
theorem processingJob_state_machine_witness :
    (ProcessingJob.make "job" ⟨"img", 800, 600, "jpeg", 50000⟩ 0).startProcessing.1 =
      .ok () ∧
    (ProcessingJob.make "job" ⟨"img", 800, 600, "jpeg", 50000⟩ 0).startProcessing.2.status =
      .IN_PROGRESS := by
  have h := processingJob_state_machine
    (ProcessingJob.make "job" ⟨"img", 800, 600, "jpeg", 50000⟩ 0)
    ⟨1600, 1200⟩ 5 1 "boom"
  exact ⟨(h.1 rfl).1, (h.1 rfl).2.1⟩

/-- C10: a transition call rejected with `InvalidTransition` leaves every
observable field of the job unchanged (the receiver after the call is the
receiver before it). -/
theorem transition_rejection_atomic (j : ProcessingJob)
    (dims : ImageDimensions) (ms : ℚ) (now : Nat) (msg : String) :
    (didNotThrow j.startProcessing.1 = false → j.startProcessing.2 = j) ∧
    (didNotThrow (j.completeSuccessfully dims ms now).1 = false →
      (j.completeSuccessfully dims ms now).2 = j) ∧
    (didNotThrow (j.fail msg now).1 = false → (j.fail msg now).2 = j) := by
  refine ⟨?_, ?_, ?_⟩
  · unfold ProcessingJob.startProcessing
    split_ifs <;> simp [didNotThrow]
  · unfold ProcessingJob.completeSuccessfully
    split_ifs <;> simp [didNotThrow]
  · unfold ProcessingJob.fail
    split_ifs <;> simp [didNotThrow]

/-- Witness for C10: a COMPLETED job rejects `startProcessing` and is left
exactly as it was. -/
theorem transition_rejection_atomic_witness :
    didNotThrow (ProcessingJob.startProcessing
      ⟨"job", ⟨"img", 800, 600, "jpeg", 50000⟩, .COMPLETED,
        some ⟨1600, 1200⟩, some 5, none, 0, some 1⟩).1 = false ∧
    (ProcessingJob.startProcessing
      ⟨"job", ⟨"img", 800, 600, "jpeg", 50000⟩, .COMPLETED,
        some ⟨1600, 1200⟩, some 5, none, 0, some 1⟩).2 =
      ⟨"job", ⟨"img", 800, 600, "jpeg", 50000⟩, .COMPLETED,
        some ⟨1600, 1200⟩, some 5, none, 0, some 1⟩ :=
  ⟨rfl, (transition_rejection_atomic
    ⟨"job", ⟨"img", 800, 600, "jpeg", 50000⟩, .COMPLETED,
      some ⟨1600, 1200⟩, some 5, none, 0, some 1⟩
    ⟨1600, 1200⟩ 5 1 "boom").1 rfl⟩

theorem jobInvariant_applyCall (j : ProcessingJob) (c : JobCall)
    (hinv : jobInvariant j) : jobInvariant (j.applyCall c) := by
  obtain ⟨h1, h2, h3, h4⟩ := hinv
  cases c with
  | start =>
    unfold ProcessingJob.applyCall ProcessingJob.startProcessing
    split_ifs with hc
    · exact ⟨h1, h2, h3, h4⟩
    · push_neg at hc
      rw [hc] at h1 h2 h3 h4
      simp only [reduceCtorEq, iff_false, or_self] at h1 h2 h3 h4
      unfold jobInvariant
      simp [h1, h2, h3, h4]
  | complete dims ms now =>
    unfold ProcessingJob.applyCall ProcessingJob.completeSuccessfully
    split_ifs with hc
    · exact ⟨h1, h2, h3, h4⟩
    · push_neg at hc
      rw [hc] at h3
      simp only [reduceCtorEq, iff_false] at h3
      unfold jobInvariant
      simp [h3]
  | failWith msg now =>
    unfold ProcessingJob.applyCall ProcessingJob.fail
    split_ifs with hc
    · exact ⟨h1, h2, h3, h4⟩
    · push_neg at hc
      rw [hc] at h1 h2
      simp only [reduceCtorEq, iff_false] at h1 h2
      unfold jobInvariant
      simp [h1, h2]

theorem jobInvariant_runCalls (j : ProcessingJob) (hinv : jobInvariant j)
    (calls : List JobCall) : jobInvariant (j.runCalls calls) := by
  induction calls generalizing j with
  | nil => exact hinv
  | cons c cs ih => exact ih _ (jobInvariant_applyCall j c hinv)

/-- C4: in every state reachable from construction by any sequence of
possibly failing transition calls, enhanced dimensions and duration are
set iff COMPLETED, the error message is set iff FAILED, and the completion
timestamp is set iff COMPLETED or FAILED. -/
theorem processingJob_invariant_reachable (id : String) (img : Image)
    (now : Nat) (calls : List JobCall) :
    jobInvariant ((ProcessingJob.make id img now).runCalls calls) := by
  refine jobInvariant_runCalls _ ?_ calls
  unfold jobInvariant ProcessingJob.make
  simp

/-- C8: with no requested factor, a loader resolving to 800x600 jpeg of
50000 bytes and a succeeding resolver, the default factor 2 applies and
the response is successful with enhanced dimensions 1600x1200 and a
COMPLETED job. -/
theorem execute_default_factor_scenario :
    EnhanceImageUseCase.execute ⟨none⟩
      (.ok ⟨[0], 800, 600, "jpeg", 50000⟩) (.ok ⟨[1], 1500⟩)
      "img-1" "job-1" 0 42 =
    .ok (⟨true, some [1], some ⟨"img-1", 800, 600, "jpeg", 50000⟩,
      some ⟨"job-1", ⟨"img-1", 800, 600, "jpeg", 50000⟩, .COMPLETED,
        some ⟨1600, 1200⟩, some 42, none, 0, some 0⟩,
      some ⟨1600, 1200⟩, 42, none⟩,
      [.loadImage, .enhanceImage]) := by
  have hup : Image.getUpscaledDimensions ⟨"img-1", 800, 600, "jpeg", 50000⟩ 2 =
      .ok ⟨1600, 1200⟩ := by
    unfold Image.getUpscaledDimensions
    rw [show ImageValidation.validateUpscaleFactor 2 = .ok () from rfl,
      except_bind_ok]
    have hw : jsRound ((⟨"img-1", 800, 600, "jpeg", 50000⟩ : Image).width * 2) = 1600 := by
      rw [jsRound, show (⟨"img-1", 800, 600, "jpeg", 50000⟩ : Image).width = 800 from rfl,
        (by norm_num : (800 : ℚ) * 2 = 1600)]
      norm_num [Int.floor_eq_iff]
    have hh : jsRound ((⟨"img-1", 800, 600, "jpeg", 50000⟩ : Image).height * 2) = 1200 := by
      rw [jsRound, show (⟨"img-1", 800, 600, "jpeg", 50000⟩ : Image).height = 600 from rfl,
        (by norm_num : (600 : ℚ) * 2 = 1200)]
      norm_num [Int.floor_eq_iff]
    rw [hw, hh, (by norm_num : ((1600 : ℤ) : ℚ) = 1600),
      (by norm_num : ((1200 : ℤ) : ℚ) = 1200)]
    rfl
  simp only [EnhanceImageUseCase.execute, executeTry, Option.getD,
    show ImageValidation.validateUpscaleFactor 2 = .ok () from rfl,
    show ImageValidation.validateDimensions 800 600 = .ok () from rfl,
    show ImageValidation.validateFileSize 50000 = .ok () from rfl,
    show ImageValidation.validateFormat "jpeg" = .ok () from rfl,
    show Image.make "img-1" 800 600 "jpeg" 50000 =
      .ok ⟨"img-1", 800, 600, "jpeg", 50000⟩ from rfl,
    show (ProcessingJob.make "job-1" ⟨"img-1", 800, 600, "jpeg", 50000⟩ 0).startProcessing =
      (.ok (), ⟨"job-1", ⟨"img-1", 800, 600, "jpeg", 50000⟩, .IN_PROGRESS,
        none, none, none, 0, none⟩) from rfl,
    hup,
    show ProcessingJob.completeSuccessfully
      ⟨"job-1", ⟨"img-1", 800, 600, "jpeg", 50000⟩, .IN_PROGRESS,
        none, none, none, 0, none⟩ ⟨1600, 1200⟩ 42 0 =
      (.ok (), ⟨"job-1", ⟨"img-1", 800, 600, "jpeg", 50000⟩, .COMPLETED,
        some ⟨1600, 1200⟩, some 42, none, 0, some 0⟩) from rfl]

/-- C9: a request whose resolved factor (default 2 when absent) is invalid
makes `execute` return a failed response with an empty port-call trace:
the image loader is never invoked. -/
theorem execute_invalid_factor_no_load (factorOpt : Option ℚ)
    (loader : Except String LoadedImageData)
    (resolver : Except String SuperResolutionResult)
    (imageId jobId : String) (now : Nat) (elapsedMs : ℚ)
    (hbad : ¬ (1 < factorOpt.getD 2 ∧ factorOpt.getD 2 ≤ 4)) :
    ∃ resp, EnhanceImageUseCase.execute ⟨factorOpt⟩ loader resolver imageId
        jobId now elapsedMs = .ok (resp, ([] : List PortCall)) ∧
      resp.success = false ∧ resp.errorMessage.isSome = true := by
  cases hva : ImageValidation.validateUpscaleFactor (factorOpt.getD 2) with
  | ok u =>
    cases u
    exact absurd ((validateUpscaleFactor_ok_iff _).mp hva) hbad
  | error e =>
    refine ⟨⟨false, none, none, none, none, elapsedMs, some e⟩, ?_, rfl, rfl⟩
    simp only [EnhanceImageUseCase.execute, executeTry, hva]

/-- Witness for C9 at the invalid factor 5: the trace is empty and the
response failed. -/
theorem execute_invalid_factor_no_load_witness :
    ∃ resp, EnhanceImageUseCase.execute ⟨some 5⟩
        (.ok ⟨[0], 800, 600, "jpeg", 50000⟩) (.ok ⟨[1], 1500⟩)
        "img-1" "job-1" 0 42 = .ok (resp, ([] : List PortCall)) ∧
      resp.success = false ∧ resp.errorMessage.isSome = true :=
  execute_invalid_factor_no_load (some 5) (.ok ⟨[0], 800, 600, "jpeg", 50000⟩)
    (.ok ⟨[1], 1500⟩) "img-1" "job-1" 0 42 (by decide)

/-- Witness for C4: the invariant holds after a start, a failure and a
subsequently rejected restart. -/
theorem processingJob_invariant_reachable_witness :
    jobInvariant ((ProcessingJob.make "job" ⟨"img", 800, 600, "jpeg", 50000⟩
      0).runCalls [.start, .failWith "boom" 3, .start]) :=
  processingJob_invariant_reachable "job" ⟨"img", 800, 600, "jpeg", 50000⟩ 0
    [.start, .failWith "boom" 3, .start]

theorem executeTry_thrown_inprogress (f : ℚ)
    (loader : Except String LoadedImageData)
    (resolver : Except String SuperResolutionResult)
    (imageId jobId : String) (now : Nat) (elapsedMs : ℚ)
    (msg : String) (oimg : Option Image) (j : ProcessingJob)
    (calls : List PortCall)
    (htry : executeTry f loader resolver imageId jobId now elapsedMs =
      (.thrown msg oimg (some j), calls)) :
    j.status = .IN_PROGRESS := by
  cases hva : ImageValidation.validateUpscaleFactor f with
  | error e =>
    simp only [executeTry, hva] at htry
    exact absurd htry (by simp)
  | ok u =>
    cases u
    cases hld : loader with
    | error e =>
      simp only [executeTry, hva, hld] at htry
      exact absurd htry (by simp)
    | ok li =>
      cases hvd : ImageValidation.validateDimensions li.width li.height with
      | error e =>
        simp only [executeTry, hva, hld, hvd] at htry
        exact absurd htry (by simp)
      | ok u =>
        cases u
        cases hvs : ImageValidation.validateFileSize li.sizeBytes with
        | error e =>
          simp only [executeTry, hva, hld, hvd, hvs] at htry
          exact absurd htry (by simp)
        | ok u =>
          cases u
          cases hvf : ImageValidation.validateFormat li.format with
          | error e =>
            simp only [executeTry, hva, hld, hvd, hvs, hvf] at htry
            exact absurd htry (by simp)
          | ok u =>
            cases u
            have hmk : Image.make imageId li.width li.height li.format
                li.sizeBytes =
                .ok ⟨imageId, li.width, li.height, li.format, li.sizeBytes⟩ := by
              unfold Image.make
              rw [hvd, except_bind_ok, hvf, except_bind_ok, hvs, except_bind_ok]
            have hsp : (ProcessingJob.make jobId
                ⟨imageId, li.width, li.height, li.format, li.sizeBytes⟩
                now).startProcessing =
                (.ok (), ⟨jobId,
                  ⟨imageId, li.width, li.height, li.format, li.sizeBytes⟩,
                  .IN_PROGRESS, none, none, none, now, none⟩) := rfl
            cases hres : resolver with
            | error e =>
              simp only [executeTry, hva, hld, hvd, hvs, hvf, hmk, hsp,
                hres] at htry
              injection htry with h1 h2
              injection h1 with e1 e2 e3
              injection e3 with hj
              rw [← hj]
            | ok res =>
              cases hup : Image.getUpscaledDimensions
                  ⟨imageId, li.width, li.height, li.format, li.sizeBytes⟩ f with
              | error e =>
                simp only [executeTry, hva, hld, hvd, hvs, hvf, hmk, hsp, hres,
                  hup] at htry
                injection htry with h1 h2
                injection h1 with e1 e2 e3
                injection e3 with hj
                rw [← hj]
              | ok ed =>
                have hcs : ProcessingJob.completeSuccessfully
                    ⟨jobId, ⟨imageId, li.width, li.height, li.format, li.sizeBytes⟩,
                      .IN_PROGRESS, none, none, none, now, none⟩ ed elapsedMs now =
                    (.ok (), ⟨jobId,
                      ⟨imageId, li.width, li.height, li.format, li.sizeBytes⟩,
                      .COMPLETED, some ed, some elapsedMs, none, now, some now⟩) := rfl
                simp only [executeTry, hva, hld, hvd, hvs, hvf, hmk, hsp, hres,
                  hup, hcs] at htry
                exact absurd htry (by simp)

/-- C2: every error raised during steps 1-6 of `execute` — every `thrown`
outcome of the embedded try block — is caught and turned into a returned
(never thrown) response that carries `success = false`, the raised
message as `errorMessage` and the elapsed time; a job created before the
catch is necessarily IN_PROGRESS there (so `job?.fail` never meets a
non-IN_PROGRESS job and no rejected transition occurs), and the response
then carries that job transitioned to FAILED with the raised message,
while with no job created no transition is attempted and the response
carries no job. The closed conjunct is the scenario of the spec: the
resolver rejects after job creation and the response carries the FAILED
job with the message of the resolver. -/
theorem execute_error_handling :
    (∀ (factorOpt : Option ℚ) (loader : Except String LoadedImageData)
      (resolver : Except String SuperResolutionResult)
      (imageId jobId : String) (now : Nat) (elapsedMs : ℚ),
      ∃ resp calls,
        EnhanceImageUseCase.execute ⟨factorOpt⟩ loader resolver imageId jobId
          now elapsedMs = .ok (resp, calls)) ∧
    (∀ (factorOpt : Option ℚ) (loader : Except String LoadedImageData)
      (resolver : Except String SuperResolutionResult)
      (imageId jobId : String) (now : Nat) (elapsedMs : ℚ)
      (msg : String) (oimg : Option Image) (j : ProcessingJob)
      (calls : List PortCall),
      executeTry (factorOpt.getD 2) loader resolver imageId jobId now elapsedMs =
        (.thrown msg oimg (some j), calls) →
      j.status = .IN_PROGRESS) ∧
    (∀ (factorOpt : Option ℚ) (loader : Except String LoadedImageData)
      (resolver : Except String SuperResolutionResult)
      (imageId jobId : String) (now : Nat) (elapsedMs : ℚ)
      (msg : String) (oimg : Option Image) (calls : List PortCall),
      executeTry (factorOpt.getD 2) loader resolver imageId jobId now elapsedMs =
        (.thrown msg oimg none, calls) →
      EnhanceImageUseCase.execute ⟨factorOpt⟩ loader resolver imageId jobId
        now elapsedMs =
        .ok (⟨false, none, oimg, none, none, elapsedMs, some msg⟩, calls)) ∧
    (∀ (factorOpt : Option ℚ) (loader : Except String LoadedImageData)
      (resolver : Except String SuperResolutionResult)
      (imageId jobId : String) (now : Nat) (elapsedMs : ℚ)
      (msg : String) (oimg : Option Image) (j : ProcessingJob)
      (calls : List PortCall),
      executeTry (factorOpt.getD 2) loader resolver imageId jobId now elapsedMs =
        (.thrown msg oimg (some j), calls) →
      EnhanceImageUseCase.execute ⟨factorOpt⟩ loader resolver imageId jobId
        now elapsedMs =
        .ok (⟨false, none, oimg,
          some { j with
            status := .FAILED
            errorMessage := some msg
            completedAt := some now },
          none, elapsedMs, some msg⟩, calls)) ∧
    EnhanceImageUseCase.execute ⟨none⟩ (.ok ⟨[0], 800, 600, "jpeg", 50000⟩)
      (.error "AI processing failed") "img-1" "job-1" 0 42 =
    .ok (⟨false, none, some ⟨"img-1", 800, 600, "jpeg", 50000⟩,
      some ⟨"job-1", ⟨"img-1", 800, 600, "jpeg", 50000⟩, .FAILED, none, none,
        some "AI processing failed", 0, some 0⟩,
      none, 42, some "AI processing failed"⟩,
      [.loadImage, .enhanceImage]) := by
  have hnone : ∀ (factorOpt : Option ℚ) (loader : Except String LoadedImageData)
      (resolver : Except String SuperResolutionResult)
      (imageId jobId : String) (now : Nat) (elapsedMs : ℚ)
      (msg : String) (oimg : Option Image) (calls : List PortCall),
      executeTry (factorOpt.getD 2) loader resolver imageId jobId now elapsedMs =
        (.thrown msg oimg none, calls) →
      EnhanceImageUseCase.execute ⟨factorOpt⟩ loader resolver imageId jobId
        now elapsedMs =
        .ok (⟨false, none, oimg, none, none, elapsedMs, some msg⟩, calls) := by
    intro factorOpt loader resolver imageId jobId now elapsedMs msg oimg calls htry
    simp only [EnhanceImageUseCase.execute, htry]
  have hsome : ∀ (factorOpt : Option ℚ) (loader : Except String LoadedImageData)
      (resolver : Except String SuperResolutionResult)
      (imageId jobId : String) (now : Nat) (elapsedMs : ℚ)
      (msg : String) (oimg : Option Image) (j : ProcessingJob)
      (calls : List PortCall),
      executeTry (factorOpt.getD 2) loader resolver imageId jobId now elapsedMs =
        (.thrown msg oimg (some j), calls) →
      EnhanceImageUseCase.execute ⟨factorOpt⟩ loader resolver imageId jobId
        now elapsedMs =
        .ok (⟨false, none, oimg,
          some { j with
            status := .FAILED
            errorMessage := some msg
            completedAt := some now },
          none, elapsedMs, some msg⟩, calls) := by
    intro factorOpt loader resolver imageId jobId now elapsedMs msg oimg j calls htry
    have hIP : j.status = .IN_PROGRESS :=
      executeTry_thrown_inprogress (factorOpt.getD 2) loader resolver imageId
        jobId now elapsedMs msg oimg j calls htry
    have hfl : j.fail msg now = (.ok (), { j with
        status := .FAILED
        errorMessage := some msg
        completedAt := some now }) := by
      unfold ProcessingJob.fail
      rw [if_neg (by simp [hIP])]
    simp only [EnhanceImageUseCase.execute, htry, hfl]
  refine ⟨?_, ?_, hnone, hsome, rfl⟩
  · intro factorOpt loader resolver imageId jobId now elapsedMs
    rcases htry : executeTry (factorOpt.getD 2) loader resolver imageId jobId
      now elapsedMs with ⟨outcome, calls⟩
    cases outcome with
    | success resp =>
      exact ⟨resp, calls, by simp only [EnhanceImageUseCase.execute, htry]⟩
    | thrown msg oimg ojob =>
      cases ojob with
      | none =>
        exact ⟨⟨false, none, oimg, none, none, elapsedMs, some msg⟩, calls,
          hnone factorOpt loader resolver imageId jobId now elapsedMs msg oimg
            calls htry⟩
      | some j =>
        exact ⟨⟨false, none, oimg,
          some { j with
            status := .FAILED
            errorMessage := some msg
            completedAt := some now },
          none, elapsedMs, some msg⟩, calls,
          hsome factorOpt loader resolver imageId jobId now elapsedMs msg oimg
            j calls htry⟩
  · intro factorOpt loader resolver imageId jobId now elapsedMs msg oimg j calls htry
    exact executeTry_thrown_inprogress (factorOpt.getD 2) loader resolver
      imageId jobId now elapsedMs msg oimg j calls htry

/-- Witness for C2: the resolver rejection after job creation, pushed
through the theorem, yields the exact failure response with the FAILED
job carrying the message of the resolver. -/
theorem execute_error_handling_witness :
    EnhanceImageUseCase.execute ⟨none⟩ (.ok ⟨[0], 800, 600, "jpeg", 50000⟩)
      (.error "AI processing failed") "img-1" "job-1" 0 42 =
    .ok (⟨false, none, some ⟨"img-1", 800, 600, "jpeg", 50000⟩,
      some ⟨"job-1", ⟨"img-1", 800, 600, "jpeg", 50000⟩, .FAILED, none, none,
        some "AI processing failed", 0, some 0⟩,
      none, 42, some "AI processing failed"⟩,
      [.loadImage, .enhanceImage]) :=
  execute_error_handling.2.2.2.1 none (.ok ⟨[0], 800, 600, "jpeg", 50000⟩)
    (.error "AI processing failed") "img-1" "job-1" 0 42
    "AI processing failed" (some ⟨"img-1", 800, 600, "jpeg", 50000⟩)
    ⟨"job-1", ⟨"img-1", 800, 600, "jpeg", 50000⟩, .IN_PROGRESS, none, none,
      none, 0, none⟩
    [.loadImage, .enhanceImage] rfl
